import Mathlib

/-!
Shallow embedding of the scale-in orchestration pipeline of the
kingsoftgames/nomad-autoscaler repository (package
plugins/builtin/target/stateful/utils, file containing ScaleIn).

External collaborators (the Nomad control-plane client and the DMS busy-node
oracle) are modelled as explicit environment inputs: each API call's result is
a field of ScaleInEnv.  Go errors are modelled as String values; a function
returning (T, error) becomes Except String T, and an accumulated
go-multierror becomes a List String of entries (nil iff the list is empty).
-/

namespace ScaleInUtils

/-- Summary node record returned by the control-plane list endpoint
(api.NodeListStub); only the fields the pipeline reads are modelled. -/
structure NodeListStub where
  ID : String
  NodeClass : String
  CreateIndex : Nat
  deriving Repr, DecidableEq

/-- Full node record returned by the control-plane info endpoint (api.Node);
the provider identity extractors read it opaquely. -/
structure NodeInfo where
  ID : String
  Attributes : List (String × String)
  deriving Repr, DecidableEq

/-- NodeID pairs the Nomad internal node identity with the remote provider's
identity, as in the source struct. -/
structure NodeID where
  NomadID : String
  RemoteID : String
  deriving Repr, DecidableEq

/-- PoolIdentifier as used by the scale-in request. -/
structure PoolIdentifier where
  IdentifierKey : String
  Value : String
  deriving Repr, DecidableEq

def IdentifierKeyClass : String := "class"

def IDStrategyNewestCreateIndex : String := "newest_create_index"

def RemoteProviderAWSInstanceID : String := "aws_instance_id"

/-- ScaleInReq, the request handed to RunPreScaleInTasks.  DrainDeadline is an
opaque duration (it is threaded through but never inspected). -/
structure ScaleInReq where
  Num : Nat
  DrainDeadline : Nat
  PoolIdent : PoolIdentifier
  RemoteProvider : String
  NodeIDStrategy : String
  deriving Repr, DecidableEq

/-- A Go error value as observed at the orchestrator boundary: either a plain
formatted error or a go-multierror carrying its list of entries. -/
inductive GoErr where
  | simple (msg : String)
  | multi (entries : List String)
  deriving Repr, DecidableEq

/-- Severity levels of drain monitor messages (api.MonitorMsgLevel); the
source switch handles info, warn and error, and everything else falls to the
default (logged, no effect), which the spec calls unspecified. -/
inductive MsgLevel where
  | info
  | warn
  | error
  | unspecified
  deriving Repr, DecidableEq

/-- A message from the drain monitoring stream. -/
structure MonitorMessage where
  Level : MsgLevel
  Message : String
  deriving Repr, DecidableEq

/-- Environment of external-call results consumed during one scale-in run:
the Nomad node list, per-node info fetches, the provider identity extractor
table, the DMS busy oracle response, per-node drain updates, per-node
monitoring streams, and the governing context's error state observed when a
stream closes. -/
structure ScaleInEnv where
  nomadNodes : Except String (List NodeListStub)
  nodeInfo : String → Except String NodeInfo
  idFuncMap : String → Option (NodeInfo → String × Option String)
  dmsNodes : Except String (List (String × Bool))
  updateDrain : String → Nat → Except String Nat
  drainStream : String → List MonitorMessage
  ctxErr : Option String

/-- filterOutNodeID removes the autoscaler's own node from the candidate
list; translated from the source. -/
def filterOutNodeID (n : List NodeListStub) (id : String) : List NodeListStub :=
  if id = "" then n
  else n.filter (fun node => !(node.ID = id : Bool))

/-- Modelled from the spec: PoolIdentifier.IdentifyNodes is declared in this
repository but its body is not under src/.  Per the spec (section 4.1) it
keeps exactly the nodes whose attribute named by the identifier key equals the
identifier value (the class attribute for the one recognized key), and an
unrecognized key is an error; the emptiness check is performed by the caller
in the source. -/
def identifyNodes (ident : PoolIdentifier) (nodes : List NodeListStub) :
    Except String (List NodeListStub) :=
  if ident.IdentifierKey = IdentifierKeyClass then
    .ok (nodes.filter (fun n => n.NodeClass = ident.Value))
  else
    .error ("unknown pool identifier key: " ++ ident.IdentifierKey)

/-- Modelled from the spec: ScaleInReq.validate is declared in this
repository but its body is not under src/.  Per the spec (section 3) a
request is valid when its count is a non-negative integer (always, for a
natural number) and its pool identifier key is a recognized kind. -/
def ScaleInReqValidate (req : ScaleInReq) : Option String :=
  if req.PoolIdent.IdentifierKey = IdentifierKeyClass then none
  else some ("unrecognized pool identifier key: " ++ req.PoolIdent.IdentifierKey)

/-- identifyTargets translated from the source: list nodes, filter by pool,
exclude the autoscaler's own node, error when nothing is left, check the
strategy is the single supported one, then take the first num nodes (clamped
to the available count).  No sorting is performed by the source. -/
def identifyTargets (env : ScaleInEnv) (curNodeID : String) (num : Nat)
    (ident : PoolIdentifier) (strategy : String) :
    Except String (List NodeListStub) :=
  match env.nomadNodes with
  | .error e => .error ("failed to list Nomad nodes from API: " ++ e)
  | .ok nodes =>
    match identifyNodes ident nodes with
    | .error e => .error e
    | .ok poolNodes =>
      let filteredNodes := filterOutNodeID poolNodes curNodeID
      if filteredNodes.isEmpty then
        .error ("no nodes unfiltered for " ++ ident.IdentifierKey ++
          " with value " ++ ident.Value)
      else if strategy = IDStrategyNewestCreateIndex then
        .ok (filteredNodes.take num)
      else
        .error ("unsupported scale in node identification strategy: " ++ strategy)

/-- The per-node loop body of getRemoteIDMap, translated from the source: a
node-info fetch failure aborts the whole batch; an extraction failure is
appended to the accumulating multierror while the node is still appended to
the output with whatever ID the extractor returned. -/
def getRemoteIDMapLoop (infoFn : String → Except String NodeInfo)
    (idFunc : NodeInfo → String × Option String) :
    List NodeListStub → Except String (List NodeID × List String)
  | [] => .ok ([], [])
  | node :: rest =>
    match infoFn node.ID with
    | .error e => .error e
    | .ok nodeInfo =>
      let r := idFunc nodeInfo
      match getRemoteIDMapLoop infoFn idFunc rest with
      | .error e => .error e
      | .ok (out, errs) =>
        .ok (⟨node.ID, r.1⟩ :: out,
          match r.2 with
          | some e => e :: errs
          | none => errs)

/-- getRemoteIDMap translated from the source: an unknown remote provider is
an immediate error, otherwise the per-node loop runs. -/
def getRemoteIDMap (infoFn : String → Except String NodeInfo)
    (idFuncMap : String → Option (NodeInfo → String × Option String))
    (nodes : List NodeListStub) (remoteProvider : String) :
    Except String (List NodeID × List String) :=
  match idFuncMap remoteProvider with
  | none => .error ("remote provider ID function not found: " ++ remoteProvider)
  | some idFunc => getRemoteIDMapLoop infoFn idFunc nodes

/-- filterBusyNodes translated from the source: on an oracle error it returns
the (still empty) output together with the error; on success it keeps exactly
the nodes not marked busy by the oracle map (absent nodes are kept), and its
own multierror accumulator is never appended to, so the returned error is
nil. -/
def filterBusyNodes (dmsList : Except String (List (String × Bool)))
    (nodes : List NodeID) : List NodeID × Option String :=
  match dmsList with
  | .error e => ([], some e)
  | .ok status =>
    (nodes.filter (fun node =>
      match status.lookup node.NomadID with
      | some busy => !busy
      | none => true), none)

/-- monitorNodeDrain translated from the source: info, warn and default
severities are only logged; an error-severity message returns a formatted
error immediately; when the stream closes the context's error state is
returned. -/
def monitorNodeDrain (msgs : List MonitorMessage) (ctxErr : Option String) :
    Option String :=
  match msgs with
  | [] => ctxErr
  | msg :: rest =>
    match msg.Level with
    | .error => some ("received error while draining node: " ++ msg.Message)
    | _ => monitorNodeDrain rest ctxErr

/-- drainNode translated from the source: a failed drain update (issued with
the shared deadline spec) is wrapped in a failed-to-drain error; otherwise the
monitor runs and its error, if any, is wrapped in a context-done error. -/
def drainNode (updateDrain : String → Nat → Except String Nat)
    (drainStream : String → List MonitorMessage) (ctxErr : Option String)
    (nodeID : String) (deadline : Nat) : Option String :=
  match updateDrain nodeID deadline with
  | .error e => some ("failed to drain node: " ++ e)
  | .ok _ =>
    match monitorNodeDrain (drainStream nodeID) ctxErr with
    | some e => some ("context done while monitoring node drain: " ++ e)
    | none => none

/-- drainNodes translated from the source: one drain task per node, all with
the shared deadline spec, outcomes joined; the multierror collects one entry
per failed node.  The concurrent fan-out is modelled functionally: each
node's outcome depends only on that node's environment, and the entries are
collected in node order (the source order is scheduler-dependent; no claim
depends on entry order). -/
def drainNodes (updateDrain : String → Nat → Except String Nat)
    (drainStream : String → List MonitorMessage) (ctxErr : Option String)
    (deadline : Nat) (nodes : List NodeID) : List String :=
  nodes.filterMap (fun n => drainNode updateDrain drainStream ctxErr n.NomadID deadline)

/-- RunPreScaleInTasks translated from the source.  Noteworthy, faithful
details: the error returned by filterBusyNodes is assigned but never checked
before being shadowed (so it is dropped here), the post-filter emptiness check
reports a generic failed-to-identify error, and any drain failure makes the
whole run return the aggregate error with no node list. -/
def RunPreScaleInTasks (env : ScaleInEnv) (curNodeID : String)
    (req : ScaleInReq) : Except GoErr (List NodeID) :=
  match ScaleInReqValidate req with
  | some e => .error (.simple ("failed to validate request: " ++ e))
  | none =>
    match identifyTargets env curNodeID req.Num req.PoolIdent req.NodeIDStrategy with
    | .error e => .error (.simple ("failed to identify nodes for removal: " ++ e))
    | .ok nodes =>
      match getRemoteIDMap env.nodeInfo env.idFuncMap nodes req.RemoteProvider with
      | .error e => .error (.simple e)
      | .ok (nodeIDMap0, resolveErrs) =>
        if resolveErrs.isEmpty then
          let nodeIDMap := (filterBusyNodes env.dmsNodes nodeIDMap0).1
          if nodeIDMap.isEmpty then
            .error (.simple "failed to identify nodes for removal")
          else
            match drainNodes env.updateDrain env.drainStream env.ctxErr
                req.DrainDeadline nodeIDMap with
            | [] => .ok nodeIDMap
            | e :: es => .error (.multi (e :: es))
        else
          .error (.multi resolveErrs)

/-! Concrete sample data used by witnesses and counterexamples. -/

/-- A node-info fetch that always succeeds, echoing the node ID. -/
def okInfoFn : String → Except String NodeInfo := fun i => .ok ⟨i, []⟩

/-- A node-info fetch that fails on node n3 only. -/
def fetchFailInfoFn : String → Except String NodeInfo := fun i =>
  if i = "n3" then .error "info fetch failed" else .ok ⟨i, []⟩

/-- An extractor that fails on node n3 only, returning the zero ID there. -/
def sampleIdFunc : NodeInfo → String × Option String := fun info =>
  if info.ID = "n3" then ("", some "extraction failed")
  else ("r-" ++ info.ID, none)

/-- An extractor table supporting only the AWS instance-ID provider. -/
def sampleIdFuncMap : String → Option (NodeInfo → String × Option String) :=
  fun p => if p = RemoteProviderAWSInstanceID then some sampleIdFunc else none

/-- An extractor that always succeeds. -/
def okIdFunc : NodeInfo → String × Option String := fun info =>
  ("r-" ++ info.ID, none)

/-- An extractor table for the AWS provider whose extractor always
succeeds. -/
def okIdFuncMap : String → Option (NodeInfo → String × Option String) :=
  fun p => if p = RemoteProviderAWSInstanceID then some okIdFunc else none

/-- Five eligible nodes of class c. -/
def sampleNodes5 : List NodeListStub :=
  [⟨"n1", "c", 1⟩, ⟨"n2", "c", 2⟩, ⟨"n3", "c", 3⟩, ⟨"n4", "c", 4⟩, ⟨"n5", "c", 5⟩]

/-- A drain update that always succeeds. -/
def okUpdateDrain : String → Nat → Except String Nat := fun _ _ => .ok 1

/-- Monitoring streams in which only node n2 emits an error-severity
message. -/
def boomStream : String → List MonitorMessage := fun i =>
  if i = "n2" then [⟨.error, "boom"⟩] else []

/-- A request for count nodes of class c from the AWS provider with the
supported strategy. -/
def sampleReq (count : Nat) : ScaleInReq :=
  ⟨count, 300, ⟨IdentifierKeyClass, "c"⟩, RemoteProviderAWSInstanceID,
    IDStrategyNewestCreateIndex⟩

/-- Environment for the drain-failure scenario: three eligible nodes, a
working oracle reporting nothing busy, and node n2's monitor stream emitting
an error. -/
def envDrainFail : ScaleInEnv :=
  ⟨.ok [⟨"n1", "c", 1⟩, ⟨"n2", "c", 2⟩, ⟨"n3", "c", 3⟩], okInfoFn,
    okIdFuncMap, .ok [], okUpdateDrain, boomStream, none⟩

/-- Environment in which everything succeeds for the single node n1. -/
def envAllOk : ScaleInEnv :=
  ⟨.ok [⟨"n1", "c", 1⟩], okInfoFn, sampleIdFuncMap, .ok [],
    okUpdateDrain, fun _ => [], none⟩

/-- Environment in which the busy-node oracle is unreachable. -/
def envOracleDown : ScaleInEnv :=
  ⟨.ok [⟨"n1", "c", 1⟩], okInfoFn, sampleIdFuncMap, .error "oracle unreachable",
    okUpdateDrain, fun _ => [], none⟩

/-- Environment with a two-node inventory listed oldest-first. -/
def envUnsorted : ScaleInEnv :=
  ⟨.ok [⟨"a", "c", 1⟩, ⟨"b", "c", 2⟩], okInfoFn, sampleIdFuncMap, .ok [],
    okUpdateDrain, fun _ => [], none⟩

/-- Modelled from the spec's words, for comparison with the source selector:
a list is in the spec's claimed selection order when each node is newer
(greater creation index) than every later node, ties broken by the node
identifier string. -/
def NewestFirstOrdered (nodes : List NodeListStub) : Prop :=
  List.Pairwise
    (fun a b => b.CreateIndex < a.CreateIndex ∨
      (a.CreateIndex = b.CreateIndex ∧ a.ID ≤ b.ID)) nodes

instance : DecidablePred NewestFirstOrdered := fun nodes => by
  unfold NewestFirstOrdered
  infer_instance

/-! Helper lemmas shared between claim theorems. -/

theorem filterBusyNodes_nil (d : Except String (List (String × Bool))) :
    (filterBusyNodes d []).1 = [] := by
  cases d <;> rfl

theorem drainNodes_eq_nil (upd : String → Nat → Except String Nat)
    (str : String → List MonitorMessage) (c : Option String) (dl : Nat)
    (nodes : List NodeID) :
    drainNodes upd str c dl nodes = [] ↔
      ∀ n ∈ nodes, drainNode upd str c n.NomadID dl = none := by
  simp [drainNodes, List.filterMap_eq_nil_iff]

theorem getRemoteIDMapLoop_ok_map (infoFn : String → Except String NodeInfo)
    (idFunc : NodeInfo → String × Option String) :
    ∀ (nodes : List NodeListStub) (out : List NodeID) (errs : List String),
      getRemoteIDMapLoop infoFn idFunc nodes = .ok (out, errs) →
      out.map NodeID.NomadID = nodes.map NodeListStub.ID
  | [], out, errs, h => by
    simp only [getRemoteIDMapLoop, Except.ok.injEq, Prod.mk.injEq] at h
    simp [← h.1]
  | node :: rest, out, errs, h => by
    simp only [getRemoteIDMapLoop] at h
    cases hinfo : infoFn node.ID with
    | error e => rw [hinfo] at h; exact absurd h (by simp)
    | ok nodeInfo =>
      rw [hinfo] at h
      cases hrec : getRemoteIDMapLoop infoFn idFunc rest with
      | error e => rw [hrec] at h; exact absurd h (by simp)
      | ok p =>
        rw [hrec] at h
        obtain ⟨restOut, restErrs⟩ := p
        simp only [Except.ok.injEq, Prod.mk.injEq] at h
        have ih := getRemoteIDMapLoop_ok_map infoFn idFunc rest restOut restErrs
          (by rw [hrec])
        rw [← h.1]
        simp [ih]

theorem getRemoteIDMapLoop_fetch_ok (infoFn : String → Except String NodeInfo)
    (idFunc : NodeInfo → String × Option String) :
    ∀ (nodes : List NodeListStub),
      (∀ n ∈ nodes, ∃ i, infoFn n.ID = .ok i) →
      ∃ out errs,
        getRemoteIDMapLoop infoFn idFunc nodes = .ok (out, errs) ∧
        out.map NodeID.NomadID = nodes.map NodeListStub.ID ∧
        errs = nodes.filterMap (fun n =>
          match infoFn n.ID with
          | .ok i => (idFunc i).2
          | .error _ => none)
  | [], _ => ⟨[], [], rfl, rfl, rfl⟩
  | node :: rest, h => by
    obtain ⟨i, hi⟩ := h node (by simp)
    obtain ⟨out, errs, hrec, hmap, herrs⟩ :=
      getRemoteIDMapLoop_fetch_ok infoFn idFunc rest
        (fun n hn => h n (by simp [hn]))
    refine ⟨⟨node.ID, (idFunc i).1⟩ :: out,
      (match (idFunc i).2 with | some e => e :: errs | none => errs), ?_, ?_, ?_⟩
    · simp only [getRemoteIDMapLoop, hi, hrec]
    · simp [hmap]
    · simp only [List.filterMap_cons, hi]
      cases hex : (idFunc i).2 <;> simp [hex, herrs]

/-! Claim theorems. -/

/-- Claim C6: for every successfully fetched oracle status map, the busy-node
filter retains exactly the nodes absent from the map or mapped to false,
excludes exactly the nodes mapped to true, and returns no error. -/
theorem filterBusyNodes_membership :
    ∀ (status : List (String × Bool)) (nodes : List NodeID) (node : NodeID),
      (node ∈ (filterBusyNodes (.ok status) nodes).1 ↔
        node ∈ nodes ∧ status.lookup node.NomadID ≠ some true) ∧
      (filterBusyNodes (.ok status) nodes).2 = none := by
  intro status nodes node
  refine ⟨?_, rfl⟩
  show node ∈ nodes.filter _ ↔ _
  rw [List.mem_filter]
  refine and_congr_right fun _ => ?_
  cases hl : status.lookup node.NomadID with
  | none => simp [hl]
  | some busy => cases busy <;> simp [hl]

/-- Claim C6 witness: a node marked busy is excluded, an unknown node is
retained, and the returned error is nil. -/
theorem filterBusyNodes_membership_witness :
    (NodeID.mk "n2" "r2" ∈
      (filterBusyNodes (.ok [("n1", true)]) [⟨"n1", "r1"⟩, ⟨"n2", "r2"⟩]).1 ∧
      ¬ NodeID.mk "n1" "r1" ∈
        (filterBusyNodes (.ok [("n1", true)]) [⟨"n1", "r1"⟩, ⟨"n2", "r2"⟩]).1) ∧
    (filterBusyNodes (.ok [("n1", true)]) [⟨"n1", "r1"⟩, ⟨"n2", "r2"⟩]).2 = none := by
  refine ⟨⟨?_, ?_⟩, ?_⟩
  · exact (filterBusyNodes_membership [("n1", true)] [⟨"n1", "r1"⟩, ⟨"n2", "r2"⟩]
      ⟨"n2", "r2"⟩).1.mpr ⟨by decide, by decide⟩
  · intro hmem
    have := (filterBusyNodes_membership [("n1", true)] [⟨"n1", "r1"⟩, ⟨"n2", "r2"⟩]
      ⟨"n1", "r1"⟩).1.mp hmem
    exact this.2 (by decide)
  · exact (filterBusyNodes_membership [("n1", true)] [⟨"n1", "r1"⟩, ⟨"n2", "r2"⟩]
      ⟨"n1", "r1"⟩).2

/-- Claim C9: self-node exclusion is idempotent — excluding an ID not present
in the list returns the list unchanged, and the exclusion never removes a
node whose ID differs from the excluded ID. -/
theorem filterOutNodeID_idempotent :
    (∀ (n : List NodeListStub) (id : String),
      (∀ node ∈ n, node.ID ≠ id) → filterOutNodeID n id = n) ∧
    (∀ (n : List NodeListStub) (id : String) (node : NodeListStub),
      node ∈ n → node.ID ≠ id → node ∈ filterOutNodeID n id) := by
  constructor
  · intro n id h
    unfold filterOutNodeID
    split
    · rfl
    · rw [List.filter_eq_self]
      intro a ha
      simpa using h a ha
  · intro n id node hmem hne
    unfold filterOutNodeID
    split
    · exact hmem
    · rw [List.mem_filter]
      exact ⟨hmem, by simpa using hne⟩

/-- Claim C9 witness: excluding the absent ID zzz from a one-node list leaves
it unchanged and keeps the node. -/
theorem filterOutNodeID_idempotent_witness :
    filterOutNodeID [⟨"n1", "c", 1⟩] "zzz" = [⟨"n1", "c", 1⟩] ∧
    NodeListStub.mk "n1" "c" 1 ∈ filterOutNodeID [⟨"n1", "c", 1⟩] "zzz" :=
  ⟨filterOutNodeID_idempotent.1 [⟨"n1", "c", 1⟩] "zzz" (by decide),
   filterOutNodeID_idempotent.2 [⟨"n1", "c", 1⟩] "zzz" ⟨"n1", "c", 1⟩
     (by decide) (by decide)⟩

/-- Claim C7: non-error-severity messages never affect the monitor outcome;
the first error-severity message yields an immediate failure independent of
the rest of the stream and of the context; and a stream that closes without
an error-severity message succeeds exactly when the governing context was not
cancelled. -/
theorem monitorNodeDrain_spec :
    (∀ (msg : MonitorMessage) (rest : List MonitorMessage) (c : Option String),
      msg.Level ≠ .error →
      monitorNodeDrain (msg :: rest) c = monitorNodeDrain rest c) ∧
    (∀ (pre post : List MonitorMessage) (m : MonitorMessage) (c : Option String),
      (∀ x ∈ pre, x.Level ≠ .error) → m.Level = .error →
      monitorNodeDrain (pre ++ m :: post) c =
        some ("received error while draining node: " ++ m.Message)) ∧
    (∀ (msgs : List MonitorMessage) (c : Option String),
      (∀ x ∈ msgs, x.Level ≠ .error) →
      monitorNodeDrain msgs c = c) := by
  have hskip : ∀ (msg : MonitorMessage) (rest : List MonitorMessage)
      (c : Option String), msg.Level ≠ .error →
      monitorNodeDrain (msg :: rest) c = monitorNodeDrain rest c := by
    intro msg rest c h
    cases hl : msg.Level <;> simp_all [monitorNodeDrain]
  refine ⟨hskip, ?_, ?_⟩
  · intro pre
    induction pre with
    | nil =>
      intro post m c _ hm
      cases hl : m.Level <;> simp_all [monitorNodeDrain]
    | cons x xs ih =>
      intro post m c hpre hm
      rw [List.cons_append, hskip x (xs ++ m :: post) c (hpre x (by simp))]
      exact ih post m c (fun y hy => hpre y (by simp [hy])) hm
  · intro msgs
    induction msgs with
    | nil => intro c _; rfl
    | cons x xs ih =>
      intro c h
      rw [hskip x xs c (h x (by simp))]
      exact ih c (fun y hy => h y (by simp [hy]))

/-- Claim C7 witness: an info message is skipped, a stream whose second
message has error severity fails with exactly that message regardless of the
trailing message and of a cancelled context, and an error-free stream
returns the context state. -/
theorem monitorNodeDrain_spec_witness :
    monitorNodeDrain [⟨.info, "a"⟩, ⟨.warn, "b"⟩] none =
      monitorNodeDrain [⟨.warn, "b"⟩] none ∧
    monitorNodeDrain [⟨.info, "a"⟩, ⟨.error, "boom"⟩, ⟨.warn, "late"⟩]
      (some "context canceled") =
      some ("received error while draining node: " ++ "boom") ∧
    monitorNodeDrain [⟨.info, "a"⟩, ⟨.unspecified, "b"⟩] (some "context canceled") =
      some "context canceled" :=
  ⟨monitorNodeDrain_spec.1 ⟨.info, "a"⟩ [⟨.warn, "b"⟩] none (by decide),
   monitorNodeDrain_spec.2.1 [⟨.info, "a"⟩] [⟨.warn, "late"⟩] ⟨.error, "boom"⟩
     (some "context canceled") (by decide) (by decide),
   monitorNodeDrain_spec.2.2 [⟨.info, "a"⟩, ⟨.unspecified, "b"⟩]
     (some "context canceled") (by decide)⟩

/-- Claim C8 (amended): all per-node outcomes are joined, the aggregate error
is nil exactly when every node drained successfully, it has exactly one entry
per failed node, and the outcome over a concatenation splits node by node —
one node's failure never changes another node's contribution.  The entries
carry only the underlying failure messages, without the node identity. -/
theorem drainNodes_amended :
    (∀ (upd : String → Nat → Except String Nat)
       (str : String → List MonitorMessage) (c : Option String) (dl : Nat)
       (nodes : List NodeID),
      drainNodes upd str c dl nodes = [] ↔
        ∀ n ∈ nodes, drainNode upd str c n.NomadID dl = none) ∧
    (∀ (upd : String → Nat → Except String Nat)
       (str : String → List MonitorMessage) (c : Option String) (dl : Nat)
       (nodes : List NodeID),
      (drainNodes upd str c dl nodes).length =
        (nodes.filter (fun n => (drainNode upd str c n.NomadID dl).isSome)).length) ∧
    (∀ (upd : String → Nat → Except String Nat)
       (str : String → List MonitorMessage) (c : Option String) (dl : Nat)
       (ns1 ns2 : List NodeID),
      drainNodes upd str c dl (ns1 ++ ns2) =
        drainNodes upd str c dl ns1 ++ drainNodes upd str c dl ns2) := by
  refine ⟨drainNodes_eq_nil, ?_, ?_⟩
  · intro upd str c dl nodes
    induction nodes with
    | nil => rfl
    | cons x xs ih =>
      simp only [drainNodes, List.filterMap_cons, List.filter_cons] at *
      cases hx : drainNode upd str c x.NomadID dl <;> simp [hx, ih]
  · intro upd str c dl ns1 ns2
    simp [drainNodes, List.filterMap_append]

/-- Claim C8 witness: for one succeeding and one failing node the aggregate
is nonempty, it has exactly one entry, and concatenation splits. -/
theorem drainNodes_amended_witness :
    (drainNodes okUpdateDrain boomStream none 300 [⟨"n1", "r1"⟩] = [] ↔
      ∀ n ∈ [NodeID.mk "n1" "r1"],
        drainNode okUpdateDrain boomStream none n.NomadID 300 = none) ∧
    (drainNodes okUpdateDrain boomStream none 300 [⟨"n1", "r1"⟩, ⟨"n2", "r2"⟩]).length =
      (List.filter
        (fun n => (drainNode okUpdateDrain boomStream none n.NomadID 300).isSome)
        ([⟨"n1", "r1"⟩, ⟨"n2", "r2"⟩] : List NodeID)).length ∧
    drainNodes okUpdateDrain boomStream none 300 ([⟨"n1", "r1"⟩] ++ [⟨"n2", "r2"⟩]) =
      drainNodes okUpdateDrain boomStream none 300 [⟨"n1", "r1"⟩] ++
        drainNodes okUpdateDrain boomStream none 300 [⟨"n2", "r2"⟩] :=
  ⟨drainNodes_amended.1 okUpdateDrain boomStream none 300 [⟨"n1", "r1"⟩],
   drainNodes_amended.2.1 okUpdateDrain boomStream none 300 [⟨"n1", "r1"⟩, ⟨"n2", "r2"⟩],
   drainNodes_amended.2.2 okUpdateDrain boomStream none 300 [⟨"n1", "r1"⟩] [⟨"n2", "r2"⟩]⟩

set_option maxRecDepth 8000 in
/-- Claim C8 counterexample (identity part): the single aggregate entry for
the failed node n2 is the wrapped monitor message, which does not contain the
node identity n2 anywhere. -/
theorem drainNodes_entry_without_identity :
    drainNodes okUpdateDrain boomStream none 300 [⟨"n2", "r2"⟩] =
      ["context done while monitoring node drain: received error while draining node: boom"] ∧
    ¬ ("n2".data <:+:
      "context done while monitoring node drain: received error while draining node: boom".data) := by
  exact ⟨rfl, by decide⟩

/-- Claim C3 counterexample: with the known AWS provider, a batch of 5 nodes
where node n3 fails extraction yields 5 NodeID entries (node n3 is included
with the zero remote ID, not excluded) and one recorded error; and a batch
where node n3's full-record fetch fails is aborted whole with that fetch
error instead of being recorded and skipped. -/
theorem getRemoteIDMap_counterexample :
    getRemoteIDMap okInfoFn sampleIdFuncMap sampleNodes5 RemoteProviderAWSInstanceID =
      .ok ([⟨"n1", "r-n1"⟩, ⟨"n2", "r-n2"⟩, ⟨"n3", ""⟩, ⟨"n4", "r-n4"⟩, ⟨"n5", "r-n5"⟩],
        ["extraction failed"]) ∧
    getRemoteIDMap fetchFailInfoFn sampleIdFuncMap sampleNodes5
      RemoteProviderAWSInstanceID = .error "info fetch failed" := by
  exact ⟨rfl, rfl⟩

/-- Claim C3 (amended): with a known provider and all full-record fetches
succeeding, extraction failures are recorded into the accumulating error
while every node — including those whose extraction failed — appears in the
output sequence in input order; a fetch failure, by contrast, aborts the
batch immediately. -/
theorem getRemoteIDMap_amended :
    ∀ (infoFn : String → Except String NodeInfo)
      (ifm : String → Option (NodeInfo → String × Option String))
      (nodes : List NodeListStub) (prov : String)
      (idFunc : NodeInfo → String × Option String),
      ifm prov = some idFunc →
      (∀ n ∈ nodes, ∃ i, infoFn n.ID = .ok i) →
      ∃ out errs,
        getRemoteIDMap infoFn ifm nodes prov = .ok (out, errs) ∧
        out.length = nodes.length ∧
        out.map NodeID.NomadID = nodes.map NodeListStub.ID ∧
        errs = nodes.filterMap (fun n =>
          match infoFn n.ID with
          | .ok i => (idFunc i).2
          | .error _ => none) := by
  intro infoFn ifm nodes prov idFunc hprov hfetch
  obtain ⟨out, errs, hloop, hmap, herrs⟩ :=
    getRemoteIDMapLoop_fetch_ok infoFn idFunc nodes hfetch
  refine ⟨out, errs, ?_, ?_, hmap, herrs⟩
  · simp [getRemoteIDMap, hprov, hloop]
  · simpa using congrArg List.length hmap

/-- Claim C3 witness: the amended statement applied to the concrete batch of
five nodes with the AWS extractor table. -/
theorem getRemoteIDMap_amended_witness :
    ∃ out errs,
      getRemoteIDMap okInfoFn sampleIdFuncMap sampleNodes5
          RemoteProviderAWSInstanceID = .ok (out, errs) ∧
      out.length = sampleNodes5.length ∧
      out.map NodeID.NomadID = sampleNodes5.map NodeListStub.ID ∧
      errs = sampleNodes5.filterMap (fun n =>
        match okInfoFn n.ID with
        | .ok i => (sampleIdFunc i).2
        | .error _ => none) :=
  getRemoteIDMap_amended okInfoFn sampleIdFuncMap sampleNodes5
    RemoteProviderAWSInstanceID sampleIdFunc rfl (fun n _ => ⟨⟨n.ID, []⟩, rfl⟩)

/-- Claim C10: the remote-identity resolver emits its NodeID pairs in the
same relative order as its input nodes (their Nomad IDs are the input IDs in
order), and the busy-node filter's output is an order-preserving subsequence
of its input. -/
theorem pipeline_order_preservation :
    (∀ (infoFn : String → Except String NodeInfo)
       (ifm : String → Option (NodeInfo → String × Option String))
       (nodes : List NodeListStub) (prov : String)
       (out : List NodeID) (errs : List String),
      getRemoteIDMap infoFn ifm nodes prov = .ok (out, errs) →
      out.map NodeID.NomadID = nodes.map NodeListStub.ID) ∧
    (∀ (d : Except String (List (String × Bool))) (ns : List NodeID),
      (filterBusyNodes d ns).1.Sublist ns) := by
  constructor
  · intro infoFn ifm nodes prov out errs h
    unfold getRemoteIDMap at h
    cases hp : ifm prov with
    | none => rw [hp] at h; exact absurd h (by simp)
    | some idFunc =>
      rw [hp] at h
      exact getRemoteIDMapLoop_ok_map infoFn idFunc nodes out errs h
  · intro d ns
    cases d with
    | error e => exact List.nil_sublist ns
    | ok status => exact List.filter_sublist ns

/-- Claim C10 witness: the resolver output of the five-node batch lists the
input IDs in order, and a concrete busy filter output is a sublist of its
input. -/
theorem pipeline_order_preservation_witness :
    ([⟨"n1", "r-n1"⟩, ⟨"n2", "r-n2"⟩, ⟨"n3", ""⟩, ⟨"n4", "r-n4"⟩,
        (⟨"n5", "r-n5"⟩ : NodeID)].map NodeID.NomadID =
      sampleNodes5.map NodeListStub.ID) ∧
    (filterBusyNodes (.ok [("n1", true)]) [⟨"n1", "r1"⟩, ⟨"n2", "r2"⟩]).1.Sublist
      [⟨"n1", "r1"⟩, ⟨"n2", "r2"⟩] :=
  ⟨pipeline_order_preservation.1 okInfoFn sampleIdFuncMap sampleNodes5
      RemoteProviderAWSInstanceID _ _ rfl,
   pipeline_order_preservation.2 (.ok [("n1", true)]) [⟨"n1", "r1"⟩, ⟨"n2", "r2"⟩]⟩

/-- Claim C5 counterexample: on an inventory listed oldest-first the selector
returns the nodes in inventory order, which is not the newest-creation-index
first order the claim describes. -/
theorem identifyTargets_no_sorting_counterexample :
    identifyTargets envUnsorted "" 2 ⟨IdentifierKeyClass, "c"⟩
      IDStrategyNewestCreateIndex = .ok [⟨"a", "c", 1⟩, ⟨"b", "c", 2⟩] ∧
    ¬ NewestFirstOrdered [⟨"a", "c", 1⟩, ⟨"b", "c", 2⟩] := by
  exact ⟨rfl, by decide⟩

/-- Claim C5 (amended): under the supported strategy the selector performs no
reordering — its output is the prefix of the pool-filtered, self-excluded
inventory list of length min(count, available), so it is deterministic in the
inventory snapshot but follows the snapshot's order, not a creation-index
sort. -/
theorem identifyTargets_prefix_of_filtered :
    ∀ (env : ScaleInEnv) (cur : String) (num : Nat) (ident : PoolIdentifier)
      (ns : List NodeListStub) (out : List NodeListStub),
      env.nomadNodes = .ok ns →
      identifyTargets env cur num ident IDStrategyNewestCreateIndex = .ok out →
      out <+:
        filterOutNodeID (ns.filter (fun n => n.NodeClass = ident.Value)) cur ∧
      out.length = min num
        (filterOutNodeID (ns.filter (fun n => n.NodeClass = ident.Value)) cur).length := by
  intro env cur num ident ns out hns h
  unfold identifyTargets at h
  rw [hns] at h
  by_cases hkey : ident.IdentifierKey = IdentifierKeyClass
  · simp only [identifyNodes, hkey, if_true] at h
    by_cases hempty :
      (filterOutNodeID (List.filter (fun n => decide (n.NodeClass = ident.Value)) ns)
        cur).isEmpty = true
    · rw [if_pos hempty] at h
      exact absurd h (by simp)
    · rw [if_neg hempty] at h
      injection h with h2
      subst h2
      exact ⟨List.take_prefix _ _, List.length_take _ _⟩
  · simp only [identifyNodes, hkey, if_false] at h
    exact absurd h (by simp)

/-- Claim C5 witness: the amended statement applied to the concrete two-node
oldest-first inventory. -/
theorem identifyTargets_prefix_of_filtered_witness :
    [NodeListStub.mk "a" "c" 1, NodeListStub.mk "b" "c" 2] <+:
      filterOutNodeID
        (List.filter (fun n => n.NodeClass = "c") [⟨"a", "c", 1⟩, ⟨"b", "c", 2⟩]) "" ∧
    ([NodeListStub.mk "a" "c" 1, NodeListStub.mk "b" "c" 2]).length = min 2
      (filterOutNodeID
        (List.filter (fun n => n.NodeClass = "c") [⟨"a", "c", 1⟩, ⟨"b", "c", 2⟩]) "").length :=
  identifyTargets_prefix_of_filtered envUnsorted "" 2 ⟨IdentifierKeyClass, "c"⟩
    [⟨"a", "c", 1⟩, ⟨"b", "c", 2⟩] [⟨"a", "c", 1⟩, ⟨"b", "c", 2⟩] rfl rfl

set_option maxRecDepth 8000 in
/-- Claim C4: when the busy-node oracle lookup fails, the run does not
surface the oracle failure: filterBusyNodes returns the oracle error, but
the orchestrator drops it (the error is assigned and never checked in the
source) and instead reports the unrelated failed-to-identify error, which
does not contain the oracle failure text. -/
theorem RunPreScaleInTasks_oracle_failure_swallowed :
    RunPreScaleInTasks envOracleDown "" (sampleReq 1) =
      .error (.simple "failed to identify nodes for removal") ∧
    (filterBusyNodes envOracleDown.dmsNodes [⟨"n1", "r-n1"⟩]).2 =
      some "oracle unreachable" ∧
    ¬ ("oracle unreachable".data <:+: "failed to identify nodes for removal".data) := by
  exact ⟨rfl, rfl, by decide⟩

/-- Claim C2 counterexample: with count 0 and a non-empty eligible pool the
pipeline does not return an empty success list with no error — the
post-filter emptiness check turns the empty selection into a failure. -/
theorem RunPreScaleInTasks_count_zero_counterexample :
    RunPreScaleInTasks envAllOk "" (sampleReq 0) =
      .error (.simple "failed to identify nodes for removal") ∧
    RunPreScaleInTasks envAllOk "" (sampleReq 0) ≠ .ok [] := by
  have h1 : RunPreScaleInTasks envAllOk "" (sampleReq 0) =
      .error (.simple "failed to identify nodes for removal") := rfl
  exact ⟨h1, by rw [h1]; simp⟩

/-- Claim C2 (amended): for every valid request with count 0 and a non-empty
eligible pool (with a known provider and the supported strategy), the
pipeline selects nothing and returns the failed-to-identify error instead of
an empty success, regardless of the oracle response. -/
theorem RunPreScaleInTasks_count_zero :
    ∀ (env : ScaleInEnv) (cur : String) (req : ScaleInReq)
      (ns : List NodeListStub) (f : NodeInfo → String × Option String),
      req.Num = 0 →
      req.PoolIdent.IdentifierKey = IdentifierKeyClass →
      req.NodeIDStrategy = IDStrategyNewestCreateIndex →
      env.nomadNodes = .ok ns →
      (filterOutNodeID (ns.filter (fun n => n.NodeClass = req.PoolIdent.Value))
        cur).isEmpty = false →
      env.idFuncMap req.RemoteProvider = some f →
      RunPreScaleInTasks env cur req =
        .error (.simple "failed to identify nodes for removal") := by
  intro env cur req ns f hnum hkey hstrat hns hne hprov
  have hval : ScaleInReqValidate req = none := by
    simp [ScaleInReqValidate, hkey]
  have htar : identifyTargets env cur req.Num req.PoolIdent req.NodeIDStrategy =
      .ok [] := by
    unfold identifyTargets
    rw [hns]
    simp only [identifyNodes, hkey, if_true, hne, hstrat, hnum, List.take_zero]
    simp
  have hmap : getRemoteIDMap env.nodeInfo env.idFuncMap [] req.RemoteProvider =
      .ok ([], []) := by
    simp [getRemoteIDMap, hprov, getRemoteIDMapLoop]
  simp [RunPreScaleInTasks, hval, htar, hmap, filterBusyNodes_nil]

/-- Claim C2 witness: the amended statement applied to the concrete
single-node environment. -/
theorem RunPreScaleInTasks_count_zero_witness :
    RunPreScaleInTasks envAllOk "" (sampleReq 0) =
      Except.error (.simple "failed to identify nodes for removal") :=
  RunPreScaleInTasks_count_zero envAllOk "" (sampleReq 0) [⟨"n1", "c", 1⟩]
    sampleIdFunc rfl rfl rfl rfl (by decide) rfl

/-- Claim C1 counterexample: three nodes where node n2's monitoring stream
emits an error-severity message; the orchestrator returns only the aggregate
error and no node list at all, even though nodes n1 and n3 drained
successfully. -/
theorem RunPreScaleInTasks_drain_failure_returns_no_list :
    RunPreScaleInTasks envDrainFail "" (sampleReq 3) =
      .error (.multi
        ["context done while monitoring node drain: received error while draining node: boom"]) ∧
    drainNode envDrainFail.updateDrain envDrainFail.drainStream envDrainFail.ctxErr
      "n1" 300 = none ∧
    drainNode envDrainFail.updateDrain envDrainFail.drainStream envDrainFail.ctxErr
      "n3" 300 = none := by
  exact ⟨rfl, rfl, rfl⟩

/-- Claim C1 (amended): the orchestrator returns a node list only when every
node in the busy-filtered selection drained successfully, and then the list
is that whole selection; any drain failure yields only the aggregate error
and no partial success list. -/
theorem RunPreScaleInTasks_ok_implies_all_drained :
    ∀ (env : ScaleInEnv) (cur : String) (req : ScaleInReq) (l : List NodeID),
      RunPreScaleInTasks env cur req = .ok l →
      l.isEmpty = false ∧
      drainNodes env.updateDrain env.drainStream env.ctxErr req.DrainDeadline l = [] ∧
      ∀ n ∈ l, drainNode env.updateDrain env.drainStream env.ctxErr
        n.NomadID req.DrainDeadline = none := by
  intro env cur req l h
  unfold RunPreScaleInTasks at h
  split at h
  · exact absurd h (by simp)
  · split at h
    · exact absurd h (by simp)
    · split at h
      · exact absurd h (by simp)
      · split at h
        · simp only [] at h
          split at h
          · exact absurd h (by simp)
          · rename_i hne
            split at h
            · rename_i hdrain
              injection h with h2
              subst h2
              exact ⟨by simpa using hne, hdrain,
                (drainNodes_eq_nil _ _ _ _ _).mp hdrain⟩
            · exact absurd h (by simp)
        · exact absurd h (by simp)

/-- Claim C1 witness: the amended statement applied to the all-success
single-node environment, whose returned node did drain successfully. -/
theorem RunPreScaleInTasks_ok_implies_all_drained_witness :
    drainNodes envAllOk.updateDrain envAllOk.drainStream envAllOk.ctxErr 300
      [⟨"n1", "r-n1"⟩] = [] :=
  (RunPreScaleInTasks_ok_implies_all_drained envAllOk "" (sampleReq 1)
    [⟨"n1", "r-n1"⟩] rfl).2.1

end ScaleInUtils
